import Mathlib

/-!
Verification of the Tab Monitor Closer background engine
(`Chrome-ext-chat5-v3/background.js`).

This file gives a shallow embedding of the tab lifecycle tracker,
eligibility scanner, closure engine, history/undo bookkeeping, write
serializer, and batching notifier of the background service worker, and
proves (or refutes) the specification's claims about them.

Modelling conventions:
* timestamps (`Date.now()` values) are `Int`;
* JavaScript truthiness of a number is `≠ 0`, of a string is `≠ ""`;
* the asynchronous promise chains used as write serializers are modelled
  as in-order folds over a queue of fallible mutators (`Option`-valued:
  `none` models a persistence failure, which the chain suppresses);
* the floating comparison `pageHeight <= viewHeight * 1.2` is embedded as
  the exact rational comparison `5 * pageHeight ≤ 6 * viewHeight`
  (`theorem isShortPage_iff_rat` relates it to the literal `1.2` form).
-/

namespace TabMonitor

/-- Metrics record returned by the injected `checkTabActivity` function
(background.js lines 163-186): vertical scroll offset, total document
height, viewport height, and the interaction flag maintained by the
injected activity tracker. -/
structure Metrics where
  scrollY : Int
  pageHeight : Nat
  viewHeight : Nat
  hasInteracted : Bool
deriving DecidableEq

/-- Line 342: `const isShortPage = metrics.pageHeight <= metrics.viewHeight * 1.2;`
(20% buffer), written with both sides scaled by 5 to stay in the integers:
`p ≤ v * 6/5 ↔ 5 * p ≤ 6 * v`. -/
def isShortPage (m : Metrics) : Bool :=
  decide (5 * m.pageHeight ≤ 6 * m.viewHeight)

/-- Lines 343-345: `const isRead = metrics.hasInteracted || (!isShortPage && metrics.scrollY > 0);` -/
def isRead (m : Metrics) : Bool :=
  m.hasInteracted || (!isShortPage m && decide (0 < m.scrollY))

/-- Lines 287-293 of `checkTabsNow`: a tracked entry `opened` is skipped when
`!opened || now - opened <= THRESHOLD_MS`; otherwise it is an eligible
candidate.  JavaScript `!opened` on a number is true exactly for `0`. -/
def isCandidate (opened now thresholdMs : Int) : Bool :=
  decide (opened ≠ 0) && decide (thresholdMs < now - opened)

/-- ASCII lower-casing of one character, as the `i` flag of the regex
performs on the pattern letters. -/
def charLower (c : Char) : Char :=
  if 65 ≤ c.toNat ∧ c.toNat ≤ 90 then Char.ofNat (c.toNat + 32) else c

/-- Case-insensitive anchored match of a pattern character list against the
head of a subject character list. -/
def ciMatch : List Char → List Char → Bool
  | [], _ => true
  | _ :: _, [] => false
  | p :: ps, c :: cs => (charLower c == charLower p) && ciMatch ps cs

/-- Lines 400-402: `function isHttpLike(url) { return /^https-:\/\//i.test(url); }`.
The regex matches subjects that begin, case-insensitively, with the nine
literal characters `https-://`. -/
def isHttpLike (url : String) : Bool :=
  ciMatch ("https-://".data) url.data

/-- Host tab fields consulted by the scanner before requesting metrics
(lines 307-310). -/
structure TabInfo where
  pinned : Bool
  audible : Bool
  url : String
deriving DecidableEq

/-- Reason counted in `skippedTabs` when a candidate is skipped. -/
inductive SkipReason where
  | pinned
  | audible
  | notHttp
deriving DecidableEq

/-- Lines 307-310: the per-candidate skip decision; `none` means the scan
proceeds to inject the metrics script.  `!tab.url` on a string is true
exactly for the empty string. -/
def scanSkip (t : TabInfo) : Option SkipReason :=
  if t.pinned then some SkipReason.pinned
  else if t.audible then some SkipReason.audible
  else if t.url == "" || !isHttpLike t.url then some SkipReason.notHttp
  else none

/-- Outcome of the metrics-gathering `chrome.scripting.executeScript` call
(lines 318-333): a runtime error, a successful call that produced no
result record, or a metrics record. -/
inductive InjectionOutcome where
  | scriptError
  | noResult
  | metrics (m : Metrics)
deriving DecidableEq

/-- Effect of the per-candidate handler on the tab's open-time entry:
left untouched, refreshed to `Date.now()`, or deleted. -/
inductive OpenTimeAction where
  | keep
  | refresh
  | remove
deriving DecidableEq

/-- Observable side effects of processing one candidate tab
(lines 318-380): whether the tab was closed, a history entry recorded,
the badge incremented, and a closure notification emitted. -/
structure CandidateEffects where
  closedTab : Bool
  recordedHistory : Bool
  incrementedBadge : Bool
  notified : Bool
deriving DecidableEq

/-- No side effects at all. -/
def noEffects : CandidateEffects :=
  ⟨false, false, false, false⟩

/-- Lines 318-380 of `checkTabsNow`, from the metrics callback onward:
* `chrome.runtime.lastError` (script error): refresh `openedAt`, nothing else;
* no result record: bare `pending--; maybeFinish()`, entry untouched;
* metrics present and judged read: refresh `openedAt`;
* metrics present and judged unread: `chrome.tabs.remove`; on failure the
  entry is kept and nothing is recorded; on success the entry is removed
  and history, badge, and notification all fire. -/
def handleCandidate (outcome : InjectionOutcome) (closeSucceeds : Bool) :
    OpenTimeAction × CandidateEffects :=
  match outcome with
  | InjectionOutcome.scriptError => (OpenTimeAction.refresh, noEffects)
  | InjectionOutcome.noResult => (OpenTimeAction.keep, noEffects)
  | InjectionOutcome.metrics m =>
    if isRead m then (OpenTimeAction.refresh, noEffects)
    else if closeSucceeds then
      (OpenTimeAction.remove, ⟨true, true, true, true⟩)
    else (OpenTimeAction.keep, noEffects)

/-- Line 11: `const MAX_HISTORY = 50;` -/
def MAX_HISTORY : Nat := 50

/-- Restore hint recorded at closure time (line 352 and 365-368): the
recently-closed session id when one was found, plus the tab's previous
window and position. -/
structure RestoreInfo where
  sessionId : Option String
  prevWindowId : Int
  prevIndex : Int
deriving DecidableEq

/-- One element of the persistent `closedHistory` list (line 506). -/
structure HistoryEntry where
  url : String
  title : String
  ts : Int
  restore : Option RestoreInfo
deriving DecidableEq

/-- Lines 510-513 of `addToHistory`: `list.unshift(entry); if (list.length >
MAX_HISTORY) list.length = MAX_HISTORY;` — prepend, then truncate to the
first `MAX_HISTORY` elements. -/
def addToHistoryList (e : HistoryEntry) (list : List HistoryEntry) : List HistoryEntry :=
  (e :: list).take MAX_HISTORY

/-- One element of the separate `htmlLogEntries` export buffer
(lines 520-523). -/
structure LogEntry where
  url : String
  title : String
  ts : Int
deriving DecidableEq

/-- One element of the persistent `undoMap`, registered when a closure
notification is shown (lines 416-419). -/
structure UndoEntry where
  url : String
  restore : Option RestoreInfo
  ts : Int
deriving DecidableEq

/-- The `chrome.storage.local` records manipulated by the history, export,
and undo paths.  The `undoMap` JavaScript object is modelled as an
association list keyed by notification id. -/
structure LocalStore where
  closedHistory : List HistoryEntry
  htmlLogEntries : List LogEntry
  undoMap : List (String × UndoEntry)
deriving DecidableEq

/-- Lines 505-527 of `addToHistory`: prepend the entry to `closedHistory`
(bounded to `MAX_HISTORY`) and prepend its `{url, title, ts}` projection to
the `htmlLogEntries` buffer (same bound). -/
def addToHistoryStore (url title : String) (ts : Int) (restore : Option RestoreInfo)
    (s : LocalStore) : LocalStore :=
  { s with
    closedHistory := addToHistoryList ⟨url, title, ts, restore⟩ s.closedHistory
    htmlLogEntries := ((⟨url, title, ts⟩ : LogEntry) :: s.htmlLogEntries).take MAX_HISTORY }

/-- Lines 900-905: the `clearHistory` command runs
`chrome.storage.local.set({ closedHistory: [] })` and nothing else. -/
def clearHistoryCommand (s : LocalStore) : LocalStore :=
  { s with closedHistory := [] }

/-- Lines 537-575: `writeHtmlLog` reads the `htmlLogEntries` buffer and
renders every one of its entries into the aggregated HTML artifact, in
order.  We model the artifact by the list of rows it contains (the
per-row HTML text additionally embeds a locale-dependent rendering of the
timestamp, which we abstract over). -/
def writeHtmlLogRows (s : LocalStore) : List LogEntry :=
  s.htmlLogEntries

/-- JavaScript `undoMap[notificationId]` on the association-list model. -/
def lookupUndo (nid : String) (undoMap : List (String × UndoEntry)) : Option UndoEntry :=
  (undoMap.find? (fun p => p.1 == nid)).map Prod.snd

/-- JavaScript `delete undoMap[notificationId]` on the association-list
model (notification ids are unique keys). -/
def eraseUndo (nid : String) (undoMap : List (String × UndoEntry)) :
    List (String × UndoEntry) :=
  undoMap.eraseP (fun p => p.1 == nid)

/-- Lines 906-923: the `restoreClosed` command looks up
`closedHistory[index]`; if absent it answers `{ok: false}` and changes
nothing; if present it performs the restoration protocol, then
`list.splice(idx, 1)` and persists the shortened list.  The Boolean result
is the `ok` field of the response. -/
def restoreClosedCommand (idx : Nat) (s : LocalStore) : LocalStore × Bool :=
  match s.closedHistory[idx]? with
  | none => (s, false)
  | some _ => ({ s with closedHistory := s.closedHistory.eraseIdx idx }, true)

/-- Lines 423-463: the notification Undo button handler runs an `undoMap`
mutator that looks up the entry for the notification id; if absent it
returns with the map unchanged; if present it restores the tab (a host
side effect) and then `delete undoMap[notificationId]`.  `closedHistory`
is never touched on this path. -/
def undoButtonClicked (nid : String) (s : LocalStore) : LocalStore :=
  match lookupUndo nid s.undoMap with
  | none => s
  | some _ => { s with undoMap := eraseUndo nid s.undoMap }

/-- A queued read-modify-write operation of a write-serializer chain.
`none` models a failed persistence attempt, whose partial work is lost:
the stored record keeps its previous value. -/
def Mutator (σ : Type) : Type :=
  σ → Option σ

/-- One link of the promise chain (`chain = chain.catch(() => {}).then(op)`,
lines 952-976): run the queued operation on the current stored value; a
failure is suppressed and leaves the stored value unchanged. -/
def chainStep {σ : Type} (s : σ) (op : Mutator σ) : σ :=
  match op s with
  | some s' => s'
  | none => s

/-- Execution of a whole serializer chain: the queued operations run
strictly in FIFO order, each on the state left by its predecessors. -/
def runChain {σ : Type} (ops : List (Mutator σ)) (s : σ) : σ :=
  ops.foldl chainStep s

/-- One element of the in-memory `pendingBatchEntries` list (lines 578-583). -/
structure BatchEntry where
  url : String
  title : String
  ts : Int
deriving DecidableEq

/-- Comparator of the flush sort (line 614):
`(a, b) => (a.ts || 0) - (b.ts || 0)` — ascending closure timestamp. -/
def batchLe (a b : BatchEntry) : Prop :=
  a.ts ≤ b.ts

instance : DecidableRel batchLe :=
  fun a b => inferInstanceAs (Decidable (a.ts ≤ b.ts))

instance : IsTotal BatchEntry batchLe :=
  ⟨fun a b => Int.le_total a.ts b.ts⟩

instance : IsTrans BatchEntry batchLe :=
  ⟨fun _ _ _ hab hbc => Int.le_trans hab hbc⟩

/-- Line 614: `batch.slice().sort((a, b) => (a.ts || 0) - (b.ts || 0))` —
a stable sort by ascending `ts`, modelled by insertion sort. -/
def sortByTs (l : List BatchEntry) : List BatchEntry :=
  l.insertionSort batchLe

/-- One hand-off performed by a flush cycle (lines 615-617): the sorted
batch is passed to the Gmail adapter, the Telegram adapter, and the
export path. -/
inductive Delivery where
  | email (entries : List BatchEntry)
  | telegram (entries : List BatchEntry)
  | exportLog (entries : List BatchEntry)
deriving DecidableEq

/-- In-memory batching state: the pending list and whether a flush timer is
currently armed (`batchFlushTimer !== null`). -/
structure BatchState where
  pending : List BatchEntry
  timerArmed : Bool
deriving DecidableEq

/-- Lines 587-601, non-immediate path of `requestBatchFlush`: if a flush
timer is already armed the call is a no-op, otherwise one timer is armed. -/
def requestBatchFlushArm (st : BatchState) : BatchState :=
  if st.timerArmed then st else { st with timerArmed := true }

/-- Lines 579-583: field normalization applied when an entry is pushed onto
the pending list (`title: entry.title || entry.url`,
`ts: entry.ts || Date.now()`). -/
def normalizeBatchEntry (now : Int) (e : BatchEntry) : BatchEntry :=
  ⟨e.url, if e.title = "" then e.url else e.title, if e.ts = 0 then now else e.ts⟩

/-- Lines 577-585 of `scheduleBatchProcessing`: entries without a truthy
`url` are dropped; otherwise the normalized entry is appended to
`pendingBatchEntries` and a flush is requested (arming the timer when none
is armed yet). -/
def scheduleBatchProcessing (now : Int) (e : BatchEntry) (st : BatchState) : BatchState :=
  if e.url = "" then st
  else requestBatchFlushArm { st with pending := st.pending ++ [normalizeBatchEntry now e] }

/-- Lines 610-618 of `flushPendingBatchInternal`: if the pending list is
empty do nothing; otherwise capture it, clear it, sort the captured batch
by ascending `ts`, and hand the whole sorted batch to the email adapter,
the chat adapter, and the export path. -/
def flushPendingBatchInternal (st : BatchState) : BatchState × List Delivery :=
  if st.pending.isEmpty then (st, [])
  else
    let entries := sortByTs st.pending
    ({ st with pending := [] },
     [Delivery.email entries, Delivery.telegram entries, Delivery.exportLog entries])

/-- Lines 597-600: the armed timer fires once, clears itself
(`batchFlushTimer = null`), and starts the flush. -/
def fireBatchTimer (st : BatchState) : BatchState × List Delivery :=
  flushPendingBatchInternal { st with timerArmed := false }

/-- Sanity check tying the integer embedding of the short-page test to the
literal `pageHeight <= viewHeight * 1.2` comparison over the exact
rationals. -/
theorem isShortPage_iff_rat (m : Metrics) :
    isShortPage m = true ↔ (m.pageHeight : ℚ) ≤ (m.viewHeight : ℚ) * 1.2 := by
  simp only [isShortPage, decide_eq_true_eq]
  rw [show (1.2 : ℚ) = 6 / 5 by norm_num]
  constructor
  · intro h
    have h' : ((5 * m.pageHeight : ℕ) : ℚ) ≤ ((6 * m.viewHeight : ℕ) : ℚ) := by
      exact_mod_cast h
    push_cast at h'
    linarith
  · intro h
    have h' : ((5 * m.pageHeight : ℕ) : ℚ) ≤ ((6 * m.viewHeight : ℕ) : ℚ) := by
      push_cast
      linarith

    exact_mod_cast h'

/-- C1: for every metrics record, the closure engine judges the tab read
if and only if `hasInteracted` is true, or the page is not short and
`scrollY > 0`, where the page is short exactly when
`pageHeight ≤ viewHeight * 1.2`; consequently with `hasInteracted = false`,
a short page and `scrollY = 0` the tab is judged unread, and with
`hasInteracted = true` it is judged read regardless of scroll or page
length. -/
theorem read_decision_characterization (m : Metrics) :
    (isRead m = true ↔
      (m.hasInteracted = true ∨
        ((m.viewHeight : ℚ) * 1.2 < (m.pageHeight : ℚ) ∧ 0 < m.scrollY)))
    ∧ (isShortPage m = true ↔ (m.pageHeight : ℚ) ≤ (m.viewHeight : ℚ) * 1.2)
    ∧ (m.hasInteracted = false → isShortPage m = true → m.scrollY = 0 →
        isRead m = false)
    ∧ (m.hasInteracted = true → isRead m = true) := by
  have hs := isShortPage_iff_rat m
  refine ⟨?_, hs, ?_, ?_⟩
  · simp only [isRead, Bool.or_eq_true, Bool.and_eq_true, Bool.not_eq_true',
      decide_eq_true_eq]
    constructor
    · rintro (h | ⟨h1, h2⟩)
      · exact Or.inl h
      · refine Or.inr ⟨?_, h2⟩
        by_contra hle
        have : isShortPage m = true := hs.mpr (not_lt.mp hle)
        rw [h1] at this
        exact Bool.false_ne_true this
    · rintro (h | ⟨h1, h2⟩)
      · exact Or.inl h
      · refine Or.inr ⟨?_, h2⟩
        cases hsp : isShortPage m
        · rfl
        · exact absurd (hs.mp hsp) (not_le.mpr h1)
  · intro h1 h2 h3
    simp [isRead, h1, h2, h3]
  · intro h
    simp [isRead, h]

/-- Witness for C1: a short page (`5*100 ≤ 6*100`) with no interaction and
no scroll is judged unread; an interacted-with tab is judged read. -/
theorem read_decision_characterization_witness :
    isRead ⟨0, 100, 100, false⟩ = false ∧ isRead ⟨0, 1000, 100, true⟩ = true := by
  constructor
  · exact (read_decision_characterization ⟨0, 100, 100, false⟩).2.2.1 rfl (by decide) rfl
  · exact (read_decision_characterization ⟨0, 1000, 100, true⟩).2.2.2 rfl

/-- C2 (code bug): `isHttpLike` tests the regex `/^https-:\/\//i`, so no
URL beginning with `http://` or `https://` passes the filter — every such
tab is skipped and counted under `notHttp`, contradicting the function's
own `HTTP/HTTPS URL filter` comment (line 399), the earlier variant's
`/^https?:\/\//i` (`Chrome-ext-chat5/background.js` line 361), and the
spec.  Only the unreachable literal scheme `https-://` is accepted. -/
theorem isHttpLike_rejects_http_and_https :
    isHttpLike "http://example.com" = false
    ∧ isHttpLike "https://example.com" = false
    ∧ scanSkip ⟨false, false, "http://example.com"⟩ = some SkipReason.notHttp
    ∧ scanSkip ⟨false, false, "https://example.com"⟩ = some SkipReason.notHttp
    ∧ isHttpLike "HTTPS-://example.com" = true := by
  refine ⟨by decide, by decide, by decide, by decide, by decide⟩

/-- C3 counterexample: when script injection succeeds but returns no
metrics record (lines 329-333), the handler leaves the open-time entry
untouched — it does not reset `openedAt` to the current time as the claim
states. -/
theorem noResult_keeps_open_time :
    (handleCandidate InjectionOutcome.noResult true).1 = OpenTimeAction.keep
    ∧ OpenTimeAction.keep ≠ OpenTimeAction.refresh := by
  exact ⟨rfl, by decide⟩

/-- C3 (amended): if script injection fails with a runtime error the tab is
treated as read — its `openedAt` is reset to the current time; if
injection succeeds but yields no metrics record the tab is skipped with
its open-time entry left untouched; in both cases the tab is never
closed and no history entry, badge increment, or notification occurs. -/
theorem metrics_unavailable_conservative (closeSucceeds : Bool) :
    handleCandidate InjectionOutcome.scriptError closeSucceeds
      = (OpenTimeAction.refresh, noEffects)
    ∧ handleCandidate InjectionOutcome.noResult closeSucceeds
      = (OpenTimeAction.keep, noEffects) := by
  exact ⟨rfl, rfl⟩

/-- C4: for every threshold `T > 0` and every tracked tab (whose `openedAt`
is a genuine event timestamp, hence positive — every write into
`openTimes` stores `Date.now()` or a truthy `lastAccessed`), the tab is a
scan candidate iff `now - openedAt > T`, and a tab with `now - openedAt`
exactly equal to `T` is not a candidate. -/
theorem scan_candidate_iff (T opened now : Int) (_hT : 0 < T) (hopen : 0 < opened) :
    (isCandidate opened now T = true ↔ T < now - opened)
    ∧ (now - opened = T → isCandidate opened now T = false) := by
  constructor
  · simp only [isCandidate, Bool.and_eq_true, decide_eq_true_eq]
    omega
  · intro h
    simp only [isCandidate, Bool.and_eq_false_iff, decide_eq_false_iff_not]
    omega

/-- Witness for C4: with a one-hour threshold (3600000 ms), a tab open for
3600001 ms is a candidate and a tab open for exactly 3600000 ms is not. -/
theorem scan_candidate_iff_witness :
    isCandidate 1000 3601001 3600000 = true
    ∧ isCandidate 1000 3601000 3600000 = false := by
  constructor
  · exact (scan_candidate_iff 3600000 1000 3601001 (by decide) (by decide)).1.mpr
      (by decide)
  · exact (scan_candidate_iff 3600000 1000 3601000 (by decide) (by decide)).2
      (by decide)

/-- C6: when closing an unread tab fails at the host (lines 353-359), the
open-time entry is left intact (so the tab is retried on the next scan)
and no history entry, badge increment, or notification occurs. -/
theorem close_failure_leaves_entry (m : Metrics) (h : isRead m = false) :
    handleCandidate (InjectionOutcome.metrics m) false
      = (OpenTimeAction.keep, noEffects) := by
  simp [handleCandidate, h]

/-- Witness for C6 at an unread metrics record. -/
theorem close_failure_leaves_entry_witness :
    handleCandidate (InjectionOutcome.metrics ⟨0, 100, 100, false⟩) false
      = (OpenTimeAction.keep, noEffects) :=
  close_failure_leaves_entry ⟨0, 100, 100, false⟩ (by decide)

/-- C5: the closed-tabs history list never exceeds `MAX_HISTORY = 50`
entries and is kept newest-first: the appended entry becomes the head, and
appending to a list of 50 entries evicts the oldest (last) entry. -/
theorem history_bounded_newest_first (e : HistoryEntry) (l : List HistoryEntry) :
    (addToHistoryList e l).length ≤ MAX_HISTORY
    ∧ (addToHistoryList e l).head? = some e
    ∧ (l.length = MAX_HISTORY → addToHistoryList e l = e :: l.dropLast) := by
  refine ⟨List.length_take_le _ _, rfl, ?_⟩
  intro h
  show (e :: l).take MAX_HISTORY = e :: l.dropLast
  rw [show MAX_HISTORY = 49 + 1 from rfl, List.take_succ_cons,
    List.dropLast_eq_take, h]
  rfl

/-- Witness for C5: appending to a full 50-entry list keeps the new entry
at the head and drops the last entry. -/
theorem history_bounded_newest_first_witness :
    addToHistoryList ⟨"u", "t", 0, none⟩ (List.replicate 50 ⟨"v", "w", 1, none⟩)
      = ⟨"u", "t", 0, none⟩
          :: (List.replicate 50 (⟨"v", "w", 1, none⟩ : HistoryEntry)).dropLast :=
  (history_bounded_newest_first ⟨"u", "t", 0, none⟩
    (List.replicate 50 ⟨"v", "w", 1, none⟩)).2.2 (by decide)

/-- C7: a write-serializer chain executes its queued mutators strictly in
FIFO order — an appended mutator runs exactly on the state left after all
previously queued operations have completed — and a failure of an earlier
operation is suppressed (the stored value is kept) and never prevents the
later operations from executing. -/
theorem serializer_fifo_failures_suppressed {σ : Type} (ops : List (Mutator σ))
    (op f : Mutator σ) (s : σ) :
    runChain (ops ++ [op]) s = chainStep (runChain ops s) op
    ∧ (f s = none → runChain (f :: ops) s = runChain ops s) := by
  constructor
  · simp [runChain, List.foldl_append]
  · intro h
    simp [runChain, chainStep, h]

/-- Witness for C7 on the natural-number record: a failing first operation
does not stop the queued increment from running. -/
theorem serializer_fifo_failures_suppressed_witness :
    runChain [fun _ => none, fun n => some (n + 1)] (0 : Nat) = 1 := by
  have h := (serializer_fifo_failures_suppressed (σ := Nat)
      [fun n => some (n + 1)] (fun n => some (n + 1)) (fun _ => none) 0).2 rfl
  calc runChain [fun _ => none, fun n : Nat => some (n + 1)] 0
      = runChain [fun n : Nat => some (n + 1)] 0 := h
    _ = 1 := rfl

/-- Arming a flush timer always results in an armed state, and is a no-op
when one is already armed. -/
theorem requestBatchFlushArm_eq (st : BatchState) :
    requestBatchFlushArm st = { st with timerArmed := true } := by
  cases st with
  | mk p a =>
    cases a <;> simp [requestBatchFlushArm]

/-- Running a sequence of `scheduleBatchProcessing` calls (each closure
with a truthy URL) appends the normalized entries in order and leaves
exactly one timer armed. -/
theorem schedule_run (now : Int) :
    ∀ (es : List BatchEntry) (st : BatchState), (∀ e ∈ es, e.url ≠ "") →
      es.foldl (fun s e => scheduleBatchProcessing now e s) st
        = ⟨st.pending ++ es.map (normalizeBatchEntry now),
           st.timerArmed || !es.isEmpty⟩ := by
  intro es
  induction es with
  | nil =>
    intro st _
    cases st
    simp
  | cons e es ih =>
    intro st hurl
    have he : e.url ≠ "" := hurl e (by simp)
    have hes : ∀ x ∈ es, x.url ≠ "" := fun x hx => hurl x (by simp [hx])
    have hstep : scheduleBatchProcessing now e st
        = ⟨st.pending ++ [normalizeBatchEntry now e], true⟩ := by
      simp [scheduleBatchProcessing, he, requestBatchFlushArm_eq]
    simp only [List.foldl_cons, hstep, ih _ hes, List.map_cons, List.isEmpty_cons,
      Bool.not_false, Bool.or_true, List.append_assoc, List.singleton_append,
      Bool.true_or]

/-- Mapping the push-time normalization over already-normalized entries is
the identity. -/
theorem map_normalize_of_normalized (now : Int) :
    ∀ (es : List BatchEntry), (∀ e ∈ es, normalizeBatchEntry now e = e) →
      es.map (normalizeBatchEntry now) = es := by
  intro es
  induction es with
  | nil =>
    intro _
    rfl
  | cons a as ih =>
    intro hx
    simp only [List.map_cons, hx a (by simp),
      ih (fun x hxm => hx x (by simp [hxm]))]

/-- C8: when several closures occur within the batching window, exactly one
batched delivery cycle fires — the schedule calls accumulate all entries
on the pending list while arming a single flush timer (re-arming is a
no-op) — and the fired flush captures and clears the pending list, sorts
it by closure timestamp ascending, and hands the whole sorted batch to the
email adapter, the chat adapter, and the export path in one cycle.
Entries are assumed already normalized (truthy url, title, ts), as the
closure path produces them. -/
theorem batch_single_cycle (now : Int) (es : List BatchEntry) (hne : es ≠ [])
    (hurl : ∀ e ∈ es, e.url ≠ "")
    (hnorm : ∀ e ∈ es, normalizeBatchEntry now e = e) :
    (es.foldl (fun s e => scheduleBatchProcessing now e s) ⟨[], false⟩).pending = es
    ∧ (es.foldl (fun s e => scheduleBatchProcessing now e s) ⟨[], false⟩).timerArmed
        = true
    ∧ requestBatchFlushArm
          (es.foldl (fun s e => scheduleBatchProcessing now e s) ⟨[], false⟩)
        = es.foldl (fun s e => scheduleBatchProcessing now e s) ⟨[], false⟩
    ∧ (fireBatchTimer
          (es.foldl (fun s e => scheduleBatchProcessing now e s) ⟨[], false⟩)).1
        = ⟨[], false⟩
    ∧ (fireBatchTimer
          (es.foldl (fun s e => scheduleBatchProcessing now e s) ⟨[], false⟩)).2
        = [Delivery.email (sortByTs es), Delivery.telegram (sortByTs es),
           Delivery.exportLog (sortByTs es)]
    ∧ (sortByTs es).Perm es
    ∧ List.Sorted batchLe (sortByTs es) := by
  have hmap : es.map (normalizeBatchEntry now) = es :=
    map_normalize_of_normalized now es hnorm
  have hempty : es.isEmpty = false := by
    cases es with
    | nil => exact absurd rfl hne
    | cons e es => rfl
  have hst : es.foldl (fun s e => scheduleBatchProcessing now e s) ⟨[], false⟩
      = ⟨es, true⟩ := by
    rw [schedule_run now es ⟨[], false⟩ hurl, hmap]
    simp [hempty]
  rw [hst]
  refine ⟨rfl, rfl, ?_, ?_, ?_, List.perm_insertionSort batchLe es,
    List.sorted_insertionSort batchLe es⟩
  · rw [requestBatchFlushArm_eq]
  · simp [fireBatchTimer, flushPendingBatchInternal, hempty]
  · simp [fireBatchTimer, flushPendingBatchInternal, hempty, sortByTs]

/-- Witness for C8: three closures within the window produce one cycle
whose three hand-offs each carry all three entries sorted by timestamp. -/
theorem batch_single_cycle_witness :
    (fireBatchTimer
        (([⟨"a", "ta", 3⟩, ⟨"b", "tb", 1⟩, ⟨"c", "tc", 2⟩] : List BatchEntry).foldl
          (fun s e => scheduleBatchProcessing 99 e s) ⟨[], false⟩)).2
      = [Delivery.email [⟨"b", "tb", 1⟩, ⟨"c", "tc", 2⟩, ⟨"a", "ta", 3⟩],
         Delivery.telegram [⟨"b", "tb", 1⟩, ⟨"c", "tc", 2⟩, ⟨"a", "ta", 3⟩],
         Delivery.exportLog [⟨"b", "tb", 1⟩, ⟨"c", "tc", 2⟩, ⟨"a", "ta", 3⟩]] := by
  have h := (batch_single_cycle 99 [⟨"a", "ta", 3⟩, ⟨"b", "tb", 1⟩, ⟨"c", "tc", 2⟩]
      (by decide) (by decide) (by decide)).2.2.2.2.1
  rw [h]
  decide

/-- C9: restoring from the history panel removes the corresponding history
entry (and only that) while leaving the undo map unchanged, whereas the
notification Undo button deletes only the undo-map entry and leaves the
history list unchanged. -/
theorem restore_entry_asymmetry (idx : Nat) (nid : String) (s : LocalStore) :
    (restoreClosedCommand idx s).1.undoMap = s.undoMap
    ∧ ((s.closedHistory[idx]?).isSome = true →
        (restoreClosedCommand idx s).1.closedHistory = s.closedHistory.eraseIdx idx
        ∧ (restoreClosedCommand idx s).2 = true)
    ∧ (undoButtonClicked nid s).closedHistory = s.closedHistory
    ∧ ((lookupUndo nid s.undoMap).isSome = true →
        (undoButtonClicked nid s).undoMap = eraseUndo nid s.undoMap) := by
  refine ⟨?_, ?_, ?_, ?_⟩
  · rcases hh : s.closedHistory[idx]? with _ | e <;>
      simp [restoreClosedCommand, hh]
  · intro h
    rcases hh : s.closedHistory[idx]? with _ | e
    · rw [hh] at h
      simp at h
    · simp [restoreClosedCommand, hh]
  · rcases hh : lookupUndo nid s.undoMap with _ | e <;>
      simp [undoButtonClicked, hh]
  · intro h
    rcases hh : lookupUndo nid s.undoMap with _ | e
    · rw [hh] at h
      simp at h
    · simp [undoButtonClicked, hh]

/-- Witness for C9 on a store holding one history entry and one undo entry:
the history restore empties the history, the Undo button empties the undo
map. -/
theorem restore_entry_asymmetry_witness :
    (restoreClosedCommand 0
        ⟨[⟨"u", "t", 0, none⟩], [⟨"u", "t", 0⟩],
          [("n1", ⟨"u", none, 0⟩)]⟩).1.closedHistory = []
    ∧ (undoButtonClicked "n1"
        ⟨[⟨"u", "t", 0, none⟩], [⟨"u", "t", 0⟩],
          [("n1", ⟨"u", none, 0⟩)]⟩).undoMap = [] := by
  have h := restore_entry_asymmetry 0 "n1"
    ⟨[⟨"u", "t", 0, none⟩], [⟨"u", "t", 0⟩], [("n1", ⟨"u", none, 0⟩)]⟩
  exact ⟨((h.2.1 (by decide)).1).trans (by decide),
    (h.2.2.2 (by decide)).trans (by decide)⟩

/-- C10: the clear-history command empties only `closedHistory` and leaves
the separate `htmlLogEntries` export buffer unchanged, so an export
invoked after clearing still renders the previously closed entries
(in particular the rows contributed by an earlier `addToHistory`). -/
theorem clear_history_spares_export (s : LocalStore) (url title : String)
    (ts : Int) (r : Option RestoreInfo) :
    (clearHistoryCommand s).closedHistory = []
    ∧ (clearHistoryCommand s).htmlLogEntries = s.htmlLogEntries
    ∧ writeHtmlLogRows (clearHistoryCommand s) = writeHtmlLogRows s
    ∧ writeHtmlLogRows (clearHistoryCommand (addToHistoryStore url title ts r s))
        = ((⟨url, title, ts⟩ : LogEntry) :: s.htmlLogEntries).take MAX_HISTORY :=
  ⟨rfl, rfl, rfl, rfl⟩

end TabMonitor
